import Mathlib

/-!
Verification of the message delivery-status reconciliation core of a
desktop messaging client (the `MessageSendState` module): the per-recipient
`SendState` value type, its pure transition function `sendStateReducer`,
the `maxStatus` ordering function, the upward-monotonic status predicates,
and the aggregate queries over a message's per-recipient send-state map.

The module under verification is exercised by
`ts/test-both/messages/MessageSendState_test.ts`; the module itself
(`ts/messages/MessageSendState.ts`) is not part of the provided sources,
so every definition below is modelled from the specification's data model
(§3) and component design (§4), faithful to its words and transition table.
-/

/-- Modelled from the spec: the `SendStatus` ordered enum of
`ts/messages/MessageSendState.ts` (missing from the provided sources),
§3: `Failed < Pending < Sent < Delivered < Read < Viewed`. -/
inductive SendStatus where
  | Failed
  | Pending
  | Sent
  | Delivered
  | Read
  | Viewed
deriving DecidableEq, Repr, Fintype

/-- Modelled from the spec: the progress rank of a status in the order
`Failed < Pending < Sent < Delivered < Read < Viewed` (§3). -/
def SendStatus.rank : SendStatus → Nat
  | .Failed => 0
  | .Pending => 1
  | .Sent => 2
  | .Delivered => 3
  | .Read => 4
  | .Viewed => 5

/-- Modelled from the spec: `maxStatus` of `ts/messages/MessageSendState.ts`
(missing from the provided sources), §4.2: returns whichever argument has
the higher progress rank, returning the shared value when equal. -/
def maxStatus (a b : SendStatus) : SendStatus :=
  if a.rank < b.rank then b else a

/-- Modelled from the spec: the `SendActionType` enum of
`ts/messages/MessageSendState.ts` (missing from the provided sources), §3. -/
inductive SendActionType where
  | Failed
  | ManuallyRetried
  | Sent
  | GotDeliveryReceipt
  | GotReadReceipt
  | GotViewedReceipt
deriving DecidableEq, Repr, Fintype

/-- Modelled from the spec: `SendState` of `ts/messages/MessageSendState.ts`
(missing from the provided sources), §3:
`{ status: SendStatus, updatedAt: optional timestamp }`. -/
structure SendState where
  status : SendStatus
  updatedAt : Option Nat
deriving DecidableEq, Repr

/-- Modelled from the spec: `SendAction` of `ts/messages/MessageSendState.ts`
(missing from the provided sources), §3:
`{ type: SendActionType, updatedAt: optional timestamp }`. -/
structure SendAction where
  type : SendActionType
  updatedAt : Option Nat
deriving DecidableEq, Repr

/-- Modelled from the spec: `sendStateReducer` of
`ts/messages/MessageSendState.ts` (missing from the provided sources),
following the §4.1 transition table row by row: a `Failed` action moves
`Pending` to `Failed` and is otherwise ignored; `ManuallyRetried` moves
`Failed` to `Pending` and is otherwise ignored; `Sent` and the three
receipt actions move the status up to (at least) `Sent`, `Delivered`,
`Read`, `Viewed` respectively and never move it down.  When the status is
unchanged the original state is returned unchanged (`updatedAt`
included); when a transition occurs `updatedAt` is replaced with the
action's `updatedAt`. -/
def sendStateReducer (state : SendState) (action : SendAction) : SendState :=
  let oldStatus := state.status
  let newStatus : SendStatus :=
    match action.type with
    | .Failed => if oldStatus = .Pending then .Failed else oldStatus
    | .ManuallyRetried => if oldStatus = .Failed then .Pending else oldStatus
    | .Sent => maxStatus oldStatus .Sent
    | .GotDeliveryReceipt => maxStatus oldStatus .Delivered
    | .GotReadReceipt => maxStatus oldStatus .Read
    | .GotViewedReceipt => maxStatus oldStatus .Viewed
  if newStatus = oldStatus then state
  else { status := newStatus, updatedAt := action.updatedAt }

/-- Modelled from the spec: `isViewed` of `ts/messages/MessageSendState.ts`
(missing from the provided sources), §4.3: true only for `Viewed`. -/
def isViewed : SendStatus → Bool
  | .Viewed => true
  | _ => false

/-- Modelled from the spec: `isRead` of `ts/messages/MessageSendState.ts`
(missing from the provided sources), §4.3: true for `Read`, `Viewed`. -/
def isRead : SendStatus → Bool
  | .Read | .Viewed => true
  | _ => false

/-- Modelled from the spec: `isDelivered` of
`ts/messages/MessageSendState.ts` (missing from the provided sources),
§4.3: true for `Delivered`, `Read`, `Viewed`. -/
def isDelivered : SendStatus → Bool
  | .Delivered | .Read | .Viewed => true
  | _ => false

/-- Modelled from the spec: `isSent` of `ts/messages/MessageSendState.ts`
(missing from the provided sources), §4.3: true for `Sent`, `Delivered`,
`Read`, `Viewed`; false for `Pending`, `Failed`. -/
def isSent : SendStatus → Bool
  | .Sent | .Delivered | .Read | .Viewed => true
  | _ => false

/-- Modelled from the spec: `SendStateByConversationId` of
`ts/messages/MessageSendState.ts` (missing from the provided sources), §3:
a mapping from recipient-conversation-identifier (string) to `SendState`,
keys unique, insertion order irrelevant; embedded as an association list. -/
abbrev SendStateByConversationId := List (String × SendState)

/-- Modelled from the spec: `someSendStatus` of
`ts/messages/MessageSendState.ts` (missing from the provided sources),
§4.4: true iff the map is defined, non-empty, and at least one entry's
status satisfies the predicate; false for an undefined or empty map.
The `Option` argument models the possibly-`undefined` map. -/
def someSendStatus (m : Option SendStateByConversationId)
    (p : SendStatus → Bool) : Bool :=
  match m with
  | none => false
  | some l => l.any (fun e => p e.2.status)

/-- Modelled from the spec: `isMessageJustForMe` of
`ts/messages/MessageSendState.ts` (missing from the provided sources),
§4.4: true iff the map has exactly one entry and its key equals
`ownConversationId`; false in every other case, including an undefined
map, an empty map, and the degenerate non-empty map missing the own-id
entry.  The `Option` argument models the possibly-`undefined` map. -/
def isMessageJustForMe (m : Option SendStateByConversationId)
    (ownConversationId : String) : Bool :=
  match m with
  | some [(k, _)] => k == ownConversationId
  | _ => false

/-- The §4.1 transition table, written out entry by entry as the spec
prints it (rows = current status, columns = action type; a `—` cell keeps
the current status).  Used to compare `sendStateReducer` against the
table. -/
def tableStatus : SendStatus → SendActionType → SendStatus
  | .Pending, .Failed => .Failed
  | .Pending, .ManuallyRetried => .Pending
  | .Pending, .Sent => .Sent
  | .Pending, .GotDeliveryReceipt => .Delivered
  | .Pending, .GotReadReceipt => .Read
  | .Pending, .GotViewedReceipt => .Viewed
  | .Failed, .Failed => .Failed
  | .Failed, .ManuallyRetried => .Pending
  | .Failed, .Sent => .Sent
  | .Failed, .GotDeliveryReceipt => .Delivered
  | .Failed, .GotReadReceipt => .Read
  | .Failed, .GotViewedReceipt => .Viewed
  | .Sent, .Failed => .Sent
  | .Sent, .ManuallyRetried => .Sent
  | .Sent, .Sent => .Sent
  | .Sent, .GotDeliveryReceipt => .Delivered
  | .Sent, .GotReadReceipt => .Read
  | .Sent, .GotViewedReceipt => .Viewed
  | .Delivered, .Failed => .Delivered
  | .Delivered, .ManuallyRetried => .Delivered
  | .Delivered, .Sent => .Delivered
  | .Delivered, .GotDeliveryReceipt => .Delivered
  | .Delivered, .GotReadReceipt => .Read
  | .Delivered, .GotViewedReceipt => .Viewed
  | .Read, .Failed => .Read
  | .Read, .ManuallyRetried => .Read
  | .Read, .Sent => .Read
  | .Read, .GotDeliveryReceipt => .Read
  | .Read, .GotReadReceipt => .Read
  | .Read, .GotViewedReceipt => .Viewed
  | .Viewed, _ => .Viewed

/-- C5: `maxStatus` is commutative, equals whichever argument has the
higher progress rank (the shared value when the ranks are equal), and is
idempotent. -/
theorem C5_maxStatus_commutative_max (a b : SendStatus) :
    maxStatus a b = maxStatus b a ∧
    maxStatus a b = (if a.rank < b.rank then b else a) ∧
    maxStatus b a = (if a.rank < b.rank then b else a) ∧
    maxStatus a a = a := by
  revert a b; decide

/-- C8: each status predicate holds exactly on its defined status set
(`isViewed` on `Viewed`; `isRead` on `Read`, `Viewed`; `isDelivered` on
`Delivered`, `Read`, `Viewed`; `isSent` on `Sent`, `Delivered`, `Read`,
`Viewed`), and each is upward-monotonic over the progress order. -/
theorem C8_status_predicates (s t : SendStatus) :
    (isViewed s = true ↔ s = .Viewed) ∧
    (isRead s = true ↔ (s = .Read ∨ s = .Viewed)) ∧
    (isDelivered s = true ↔ (s = .Delivered ∨ s = .Read ∨ s = .Viewed)) ∧
    (isSent s = true ↔ (s = .Sent ∨ s = .Delivered ∨ s = .Read ∨ s = .Viewed)) ∧
    (s.rank ≤ t.rank →
      (isViewed s = true → isViewed t = true) ∧
      (isRead s = true → isRead t = true) ∧
      (isDelivered s = true → isDelivered t = true) ∧
      (isSent s = true → isSent t = true)) := by
  revert s t; decide

/-- C8 witness: the predicate facts evaluated at `Sent ≤ Delivered`. -/
theorem C8_status_predicates_witness :
    (SendStatus.Sent).rank ≤ (SendStatus.Delivered).rank ∧
    (isSent SendStatus.Sent = true → isSent SendStatus.Delivered = true) :=
  ⟨by decide, fun h => ((C8_status_predicates SendStatus.Sent SendStatus.Delivered).2.2.2.2
    (by decide)).2.2.2 h⟩

/-- C1 counterexample: the claimed no-op rule ("any action whose resulting
status is ≤ the current status in progress order is a no-op returning the
state unchanged") fails at state `(Pending, 999)` with action
`(Failed, 123)`: the resulting status `Failed` ranks below `Pending`, yet
the call is not a no-op — it transitions to `Failed` and replaces
`updatedAt` with the action's. -/
theorem C1_noop_rule_counterexample :
    (sendStateReducer ⟨SendStatus.Pending, some 999⟩
        ⟨SendActionType.Failed, some 123⟩).status.rank ≤
      (SendStatus.Pending).rank ∧
    sendStateReducer ⟨SendStatus.Pending, some 999⟩
        ⟨SendActionType.Failed, some 123⟩ ≠
      ⟨SendStatus.Pending, some 999⟩ := by
  decide

/-- C1 (amended): `sendStateReducer` is a pure total function whose
resulting status is exactly the §4.1 table entry for
(current status, action type); when the table entry equals the current
status the state is returned unchanged (`updatedAt` included); when a
transition occurs the result's `updatedAt` is the action's `updatedAt`
(absence propagates), never the original state's; and — except for the
`Failed` action applied in the `Pending` status, which transitions down
to `Failed` — a resulting status ≤ the current status implies the call
was a no-op. -/
theorem C1_transition_table (s : SendState) (a : SendAction) :
    (sendStateReducer s a).status = tableStatus s.status a.type ∧
    (tableStatus s.status a.type = s.status → sendStateReducer s a = s) ∧
    (tableStatus s.status a.type ≠ s.status →
      sendStateReducer s a =
        { status := tableStatus s.status a.type, updatedAt := a.updatedAt }) ∧
    (¬(s.status = SendStatus.Pending ∧ a.type = SendActionType.Failed) →
      (sendStateReducer s a).status.rank ≤ s.status.rank →
      sendStateReducer s a = s) := by
  obtain ⟨st, u⟩ := s
  obtain ⟨ty, v⟩ := a
  cases st <;> cases ty <;>
    simp [sendStateReducer, tableStatus, maxStatus, SendStatus.rank]

/-- C1 witness: the table facts evaluated at state `(Pending, 1)` and
action `(GotReadReceipt, 2)`, a transition whose result takes the
action's timestamp. -/
theorem C1_transition_table_witness :
    tableStatus SendStatus.Pending SendActionType.GotReadReceipt ≠
      SendStatus.Pending ∧
    sendStateReducer ⟨SendStatus.Pending, some 1⟩
        ⟨SendActionType.GotReadReceipt, some 2⟩ =
      { status := tableStatus SendStatus.Pending SendActionType.GotReadReceipt,
        updatedAt := some 2 } :=
  ⟨by decide,
    (C1_transition_table ⟨SendStatus.Pending, some 1⟩
      ⟨SendActionType.GotReadReceipt, some 2⟩).2.2.1 (by decide)⟩

/-- C2 counterexample: monotonicity fails exactly where the claim says it
should hold — the `Failed` action applied to a `Pending` state strictly
lowers the progress rank (from `Pending`, rank 1, to `Failed`, rank 0). -/
theorem C2_monotonicity_counterexample :
    ¬ ((SendStatus.Pending).rank ≤
        (sendStateReducer ⟨SendStatus.Pending, some 1⟩
          ⟨SendActionType.Failed, some 2⟩).status.rank) := by
  decide

/-- C2 (amended): for every state and action other than the `Failed`
action applied to a `Pending` state, the resulting status rank is ≥ the
input status rank. -/
theorem C2_monotone_amended (s : SendState) (a : SendAction)
    (h : ¬(s.status = SendStatus.Pending ∧ a.type = SendActionType.Failed)) :
    s.status.rank ≤ (sendStateReducer s a).status.rank := by
  obtain ⟨st, u⟩ := s
  obtain ⟨ty, v⟩ := a
  cases st <;> cases ty <;>
    simp_all [sendStateReducer, maxStatus, SendStatus.rank]

/-- C2 witness: monotonicity evaluated at state `(Sent, none)` with a
`Failed` action — the status stays `Sent`. -/
theorem C2_monotone_amended_witness :
    ¬((SendStatus.Sent : SendStatus) = SendStatus.Pending ∧
        (SendActionType.Failed : SendActionType) = SendActionType.Failed) ∧
    (SendStatus.Sent).rank ≤
      (sendStateReducer ⟨SendStatus.Sent, none⟩
        ⟨SendActionType.Failed, none⟩).status.rank :=
  ⟨by decide,
    C2_monotone_amended ⟨SendStatus.Sent, none⟩
      ⟨SendActionType.Failed, none⟩ (by decide)⟩

/-- C4: applying the same action twice from any state yields exactly the
same resulting state (status and `updatedAt`) as applying it once. -/
theorem C4_reducer_idempotent (s : SendState) (a : SendAction) :
    sendStateReducer (sendStateReducer s a) a = sendStateReducer s a := by
  obtain ⟨st, u⟩ := s
  obtain ⟨ty, v⟩ := a
  cases st <;> cases ty <;> rfl

/-- C10: a success-signal action establishes at least its own level from
any prior state: a `Sent` action yields rank ≥ `Sent`, a delivery receipt
rank ≥ `Delivered`, a read receipt rank ≥ `Read`, and a viewed receipt
always yields status `Viewed` exactly. -/
theorem C10_receipt_floor (s : SendState) (a : SendAction) :
    (a.type = SendActionType.Sent →
      (SendStatus.Sent).rank ≤ (sendStateReducer s a).status.rank) ∧
    (a.type = SendActionType.GotDeliveryReceipt →
      (SendStatus.Delivered).rank ≤ (sendStateReducer s a).status.rank) ∧
    (a.type = SendActionType.GotReadReceipt →
      (SendStatus.Read).rank ≤ (sendStateReducer s a).status.rank) ∧
    (a.type = SendActionType.GotViewedReceipt →
      (sendStateReducer s a).status = SendStatus.Viewed) := by
  obtain ⟨st, u⟩ := s
  obtain ⟨ty, v⟩ := a
  cases st <;> cases ty <;>
    simp [sendStateReducer, maxStatus, SendStatus.rank]

/-- C10 witness: a viewed receipt received in the `Failed` status jumps
directly to `Viewed`. -/
theorem C10_receipt_floor_witness :
    (sendStateReducer ⟨SendStatus.Failed, some 1⟩
      ⟨SendActionType.GotViewedReceipt, none⟩).status = SendStatus.Viewed :=
  (C10_receipt_floor ⟨SendStatus.Failed, some 1⟩
    ⟨SendActionType.GotViewedReceipt, none⟩).2.2.2 rfl

/-- C6: `isMessageJustForMe` returns true exactly when the map is defined
and holds exactly one entry whose key is `ownConversationId`; in
particular it returns false for an undefined map, for an empty map, for
any map with two or more entries, and for a single-entry map whose key
differs. -/
theorem C6_isMessageJustForMe_iff (m : Option SendStateByConversationId)
    (own : String) :
    (isMessageJustForMe m own = true ↔
      ∃ st : SendState, m = some [(own, st)]) ∧
    isMessageJustForMe none own = false ∧
    isMessageJustForMe (some []) own = false ∧
    (∀ (e f : String × SendState) (rest : List (String × SendState)),
      m = some (e :: f :: rest) → isMessageJustForMe m own = false) ∧
    (∀ (k : String) (st : SendState),
      k ≠ own → isMessageJustForMe (some [(k, st)]) own = false) := by
  refine ⟨?_, rfl, rfl, ?_, ?_⟩
  · match m with
    | none => simp [isMessageJustForMe]
    | some [] => simp [isMessageJustForMe]
    | some [(k, st)] => simp [isMessageJustForMe]
    | some ((k₁, st₁) :: (k₂, st₂) :: rest) => simp [isMessageJustForMe]
  · rintro ⟨k₁, st₁⟩ ⟨k₂, st₂⟩ rest rfl
    rfl
  · intro k st hk
    simp [isMessageJustForMe, hk]

/-- C6 witness: a defined single-entry map keyed by the own conversation
id is recognised as just-for-me. -/
theorem C6_isMessageJustForMe_witness :
    isMessageJustForMe
      (some [("ourConversationId", ⟨SendStatus.Sent, some 123⟩)])
      "ourConversationId" = true :=
  (C6_isMessageJustForMe_iff
      (some [("ourConversationId", ⟨SendStatus.Sent, some 123⟩)])
      "ourConversationId").1.mpr ⟨⟨SendStatus.Sent, some 123⟩, rfl⟩

/-- C7: `someSendStatus` returns true exactly when the map is defined,
non-empty, and some entry's status satisfies the predicate; an undefined
or empty map yields false even for an always-true predicate. -/
theorem C7_someSendStatus_iff (m : Option SendStateByConversationId)
    (p : SendStatus → Bool) :
    (someSendStatus m p = true ↔
      ∃ l : SendStateByConversationId,
        m = some l ∧ ∃ e ∈ l, p e.2.status = true) ∧
    someSendStatus none p = false ∧
    someSendStatus (some []) p = false := by
  refine ⟨?_, rfl, rfl⟩
  match m with
  | none => simp [someSendStatus]
  | some l => simp [someSendStatus, List.any_eq_true]

/-- C7 witness: a two-entry map with one `Read` entry satisfies the
`isRead` search. -/
theorem C7_someSendStatus_witness :
    someSendStatus
      (some [("abc", ⟨SendStatus.Sent, some 1⟩),
             ("def", ⟨SendStatus.Read, some 2⟩)]) isRead = true :=
  (C7_someSendStatus_iff
      (some [("abc", ⟨SendStatus.Sent, some 1⟩),
             ("def", ⟨SendStatus.Read, some 2⟩)]) isRead).1.mpr
    ⟨[("abc", ⟨SendStatus.Sent, some 1⟩), ("def", ⟨SendStatus.Read, some 2⟩)],
      rfl, ("def", ⟨SendStatus.Read, some 2⟩), by simp, rfl⟩

/-- C9: every core operation is a total deterministic function of its
input: the map queries return the data value `false` (rather than any
error) on the undefined and empty map shapes, and for every state ×
action pair the reducer yields a result that is either the input state
unchanged or a plain record stamped with the action's `updatedAt` — error
situations are data (`Failed` status or `false`), never control-flow
faults. -/
theorem C9_total_no_exceptions (p : SendStatus → Bool) (own : String)
    (s : SendState) (a : SendAction) :
    someSendStatus none p = false ∧
    someSendStatus (some []) p = false ∧
    isMessageJustForMe none own = false ∧
    isMessageJustForMe (some []) own = false ∧
    ∃ r : SendState, sendStateReducer s a = r ∧
      (r = s ∨ r.updatedAt = a.updatedAt) := by
  refine ⟨rfl, rfl, rfl, rfl, sendStateReducer s a, rfl, ?_⟩
  obtain ⟨st, u⟩ := s
  obtain ⟨ty, v⟩ := a
  cases st <;> cases ty <;> first | exact Or.inl rfl | exact Or.inr rfl

/-- Folding `sendStateReducer` over a list of inbound actions, the way
the driver applies a stream of events to one recipient's state (§5). -/
def applyActions (start : SendState) (actions : List SendAction) : SendState :=
  actions.foldl sendStateReducer start

/-- The status an action establishes on its own: the column target of the
§4.1 table (`Failed` for the failure signal, `Pending` for a manual
retry, and the carried status for `Sent` and the three receipts). -/
def targetStatus : SendActionType → SendStatus
  | .Failed => .Failed
  | .ManuallyRetried => .Pending
  | .Sent => .Sent
  | .GotDeliveryReceipt => .Delivered
  | .GotReadReceipt => .Read
  | .GotViewedReceipt => .Viewed

/-- The join of the targets of a list of actions, starting from the
bottom status `Failed`. -/
def targetsMax (actions : List SendAction) : SendStatus :=
  actions.foldl (fun acc a => maxStatus acc (targetStatus a.type))
    SendStatus.Failed

theorem maxStatus_assoc (a b c : SendStatus) :
    maxStatus (maxStatus a b) c = maxStatus a (maxStatus b c) := by
  revert a b c; decide

theorem maxStatus_failed_left (a : SendStatus) :
    maxStatus SendStatus.Failed a = a := by
  revert a; decide

theorem maxStatus_failed_right (a : SendStatus) :
    maxStatus a SendStatus.Failed = a := by
  revert a; decide

theorem maxStatus_rank_left (a b : SendStatus) :
    a.rank ≤ (maxStatus a b).rank := by
  revert a b; decide

theorem maxStatus_rank_right (a b : SendStatus) :
    b.rank ≤ (maxStatus a b).rank := by
  revert a b; decide

theorem maxStatus_or (a b : SendStatus) :
    maxStatus a b = a ∨ maxStatus a b = b := by
  revert a b; decide

theorem rank_le_antisymm (a b : SendStatus) :
    a.rank ≤ b.rank → b.rank ≤ a.rank → a = b := by
  revert a b; decide

theorem failed_rank_le (a : SendStatus) :
    (SendStatus.Failed).rank ≤ a.rank := by
  revert a; decide

/-- Every non-`Failed` action acts on the status as a join with its
target status. -/
theorem reducer_status_eq_max (s : SendState) (a : SendAction)
    (h : a.type ≠ SendActionType.Failed) :
    (sendStateReducer s a).status = maxStatus s.status (targetStatus a.type) := by
  obtain ⟨st, u⟩ := s
  obtain ⟨ty, v⟩ := a
  cases st <;> cases ty <;>
    simp_all [sendStateReducer, targetStatus, maxStatus, SendStatus.rank]

/-- Pulling a join out of the initial accumulator of the targets fold. -/
theorem foldl_max_init (t : List SendAction) :
    ∀ x y : SendStatus,
      t.foldl (fun acc a => maxStatus acc (targetStatus a.type)) (maxStatus x y) =
        maxStatus x (t.foldl (fun acc a => maxStatus acc (targetStatus a.type)) y) := by
  induction t with
  | nil => intro x y; rfl
  | cons b r ih =>
      intro x y
      simp only [List.foldl_cons]
      rw [maxStatus_assoc, ih x (maxStatus y (targetStatus b.type))]

theorem targetsMax_cons (a : SendAction) (t : List SendAction) :
    targetsMax (a :: t) = maxStatus (targetStatus a.type) (targetsMax t) := by
  unfold targetsMax
  simp only [List.foldl_cons]
  rw [maxStatus_failed_left]
  calc t.foldl (fun acc b => maxStatus acc (targetStatus b.type)) (targetStatus a.type)
      = t.foldl (fun acc b => maxStatus acc (targetStatus b.type))
          (maxStatus (targetStatus a.type) SendStatus.Failed) := by
        rw [maxStatus_failed_right]
    _ = maxStatus (targetStatus a.type)
          (t.foldl (fun acc b => maxStatus acc (targetStatus b.type))
            SendStatus.Failed) := foldl_max_init t _ _

/-- For a stream free of `Failed` actions, the final status of the fold
is the join of the starting status with the targets of the stream. -/
theorem applyActions_status (l : List SendAction) :
    ∀ s : SendState, (∀ a ∈ l, a.type ≠ SendActionType.Failed) →
      (applyActions s l).status = maxStatus s.status (targetsMax l) := by
  induction l with
  | nil =>
      intro s _
      show s.status = maxStatus s.status SendStatus.Failed
      rw [maxStatus_failed_right]
  | cons a t ih =>
      intro s h
      have ha : a.type ≠ SendActionType.Failed := h a (List.mem_cons_self a t)
      have ht : ∀ b ∈ t, b.type ≠ SendActionType.Failed :=
        fun b hb => h b (List.mem_cons_of_mem a hb)
      show (applyActions (sendStateReducer s a) t).status = _
      rw [ih (sendStateReducer s a) ht, reducer_status_eq_max s a ha,
        maxStatus_assoc, ← targetsMax_cons]

/-- The join of the targets bounds every individual target from above. -/
theorem targetsMax_rank_le (l : List SendAction) :
    ∀ a ∈ l, (targetStatus a.type).rank ≤ (targetsMax l).rank := by
  induction l with
  | nil => intro a ha; cases ha
  | cons b t ih =>
      intro a ha
      rw [targetsMax_cons]
      rcases List.mem_cons.mp ha with rfl | hmem
      · exact maxStatus_rank_left _ _
      · exact Nat.le_trans (ih a hmem) (maxStatus_rank_right _ _)

/-- The join of the targets is either the bottom status or attained by
some action in the list. -/
theorem targetsMax_attained (l : List SendAction) :
    targetsMax l = SendStatus.Failed ∨
      ∃ a ∈ l, targetStatus a.type = targetsMax l := by
  induction l with
  | nil => exact Or.inl rfl
  | cons b t ih =>
      rw [targetsMax_cons]
      rcases maxStatus_or (targetStatus b.type) (targetsMax t) with h | h
      · exact Or.inr ⟨b, List.mem_cons_self b t, h.symm⟩
      · rw [h]
        rcases ih with hf | ⟨a, ha, hEq⟩
        · exact Or.inl hf
        · exact Or.inr ⟨a, List.mem_cons_of_mem b ha, hEq⟩

/-- Two streams presenting the same set of action types have the same
target join. -/
theorem targetsMax_eq_of_same_types (l₁ l₂ : List SendAction)
    (h : ∀ t : SendActionType,
      (∃ a ∈ l₁, a.type = t) ↔ (∃ a ∈ l₂, a.type = t)) :
    targetsMax l₁ = targetsMax l₂ := by
  have le : ∀ m₁ m₂ : List SendAction,
      (∀ t : SendActionType, (∃ a ∈ m₁, a.type = t) → (∃ a ∈ m₂, a.type = t)) →
      (targetsMax m₁).rank ≤ (targetsMax m₂).rank := by
    intro m₁ m₂ hsub
    rcases targetsMax_attained m₁ with hf | ⟨a, ha, hEq⟩
    · rw [hf]; exact failed_rank_le _
    · obtain ⟨b, hb, hbty⟩ := hsub a.type ⟨a, ha, rfl⟩
      calc (targetsMax m₁).rank = (targetStatus a.type).rank := by rw [hEq]
        _ = (targetStatus b.type).rank := by rw [hbty]
        _ ≤ (targetsMax m₂).rank := targetsMax_rank_le m₂ b hb
  exact rank_le_antisymm _ _
    (le l₁ l₂ fun t ht => (h t).mp ht)
    (le l₂ l₁ fun t ht => (h t).mpr ht)

/-- C3 counterexample: the final status is not order-independent — from
`Pending`, applying `Failed` then `ManuallyRetried` ends `Pending`, while
the same two actions in the opposite order end `Failed`. -/
theorem C3_order_counterexample :
    (applyActions ⟨SendStatus.Pending, none⟩
        [⟨SendActionType.Failed, none⟩,
         ⟨SendActionType.ManuallyRetried, none⟩]).status ≠
      (applyActions ⟨SendStatus.Pending, none⟩
        [⟨SendActionType.ManuallyRetried, none⟩,
         ⟨SendActionType.Failed, none⟩]).status := by
  decide

/-- C3 (amended): for every starting state and every pair of action
streams that contain no `Failed` action and present the same set of
action types, folding `sendStateReducer` yields the same final status —
order and duplication of non-`Failed` events are harmless.  (With a
`Failed` action in the mix, order matters: from `Pending`, `Failed` then
`ManuallyRetried` converges to `Pending`, the opposite order to
`Failed`.) -/
theorem C3_commutative_idempotent_amended (s : SendState)
    (l₁ l₂ : List SendAction)
    (h₁ : ∀ a ∈ l₁, a.type ≠ SendActionType.Failed)
    (h₂ : ∀ a ∈ l₂, a.type ≠ SendActionType.Failed)
    (h : ∀ t : SendActionType,
      (∃ a ∈ l₁, a.type = t) ↔ (∃ a ∈ l₂, a.type = t)) :
    (applyActions s l₁).status = (applyActions s l₂).status := by
  rw [applyActions_status l₁ s h₁, applyActions_status l₂ s h₂,
    targetsMax_eq_of_same_types l₁ l₂ h]

/-- C3 witness: a duplicated, reordered stream of `Sent` and read-receipt
events converges to the same final status as its deduplicated ordering. -/
theorem C3_commutative_idempotent_amended_witness :
    (applyActions ⟨SendStatus.Pending, none⟩
        [⟨SendActionType.Sent, some 1⟩,
         ⟨SendActionType.GotReadReceipt, some 2⟩,
         ⟨SendActionType.Sent, some 3⟩]).status =
      (applyActions ⟨SendStatus.Pending, none⟩
        [⟨SendActionType.GotReadReceipt, some 9⟩,
         ⟨SendActionType.Sent, some 4⟩]).status :=
  C3_commutative_idempotent_amended ⟨SendStatus.Pending, none⟩
    [⟨SendActionType.Sent, some 1⟩,
     ⟨SendActionType.GotReadReceipt, some 2⟩,
     ⟨SendActionType.Sent, some 3⟩]
    [⟨SendActionType.GotReadReceipt, some 9⟩,
     ⟨SendActionType.Sent, some 4⟩]
    (by decide) (by decide) (by decide)
